import Mathlib

/-!
Shallow embedding of the two Python modules of this repository:

* `src/nasa-fire-port/src/core/auto_scaler.py` — the auto-scaling engine
  (`ScalingAction`, `SystemMetrics`, `ScalingConfig`, `AutoScaler`).
* `src/learning-projects/python/data-structures/linked-list/linked_list.py` —
  the singly linked list (its position-indexed operations).

Python floats are modelled as `ℚ` (all arithmetic in the source is exact on
the rationals involved: divisions by 100/1000/2000, multiplications by the
literals 0.4/0.2/0.7, comparisons), Python `int` as `ℤ`.  Calls to
`time.time()` are modelled by passing the current time `now : ℚ` explicitly.
Mutation of the `AutoScaler` object is modelled as explicit state passing.
Python's `int(x)` conversion truncates toward zero, which `pyInt` captures.
-/

set_option autoImplicit false

namespace PortfolioRepo

/-- Python `int(x)` applied to a real/rational value truncates toward zero:
floor for nonnegative arguments, ceiling for negative ones. -/
def pyInt (q : ℚ) : ℤ :=
  if 0 ≤ q then ⌊q⌋ else ⌈q⌉

/-- Mirrors `statistics.mean` on a list of rationals (total here; the source
only calls it on nonempty lists). -/
def ratMean (l : List ℚ) : ℚ :=
  l.sum / l.length

/-- Mirrors `class ScalingAction(Enum)` from `auto_scaler.py`. -/
inductive ScalingAction where
  | SCALE_UP
  | SCALE_DOWN
  | NO_ACTION
deriving DecidableEq, Repr

/-- Mirrors `@dataclass class SystemMetrics` from `auto_scaler.py`.
`active_connections` is declared `int` in the source but is averaged as a
float by `_calculate_average_metrics`, so it is modelled as `ℚ`. -/
structure SystemMetrics where
  cpu_usage : ℚ
  memory_usage : ℚ
  disk_usage : ℚ
  network_io : ℚ
  active_connections : ℚ
  response_time : ℚ
  timestamp : ℚ
deriving DecidableEq, Repr

/-- Mirrors `@dataclass class ScalingConfig` from `auto_scaler.py`. -/
structure ScalingConfig where
  min_instances : ℤ := 2
  max_instances : ℤ := 10
  scale_up_threshold : ℚ := 70
  scale_down_threshold : ℚ := 30
  cooldown_period : ℤ := 300
  metrics_window : ℤ := 60
  scale_up_factor : ℚ := 1.5
  scale_down_factor : ℚ := 0.7
deriving DecidableEq, Repr

/-- Mirrors the mutable state of `class AutoScaler` (its `__init__` fields
other than the logger). -/
structure AutoScaler where
  config : ScalingConfig
  current_instances : ℤ
  metrics_history : List SystemMetrics
  last_scaling_time : ℚ
deriving DecidableEq, Repr

namespace AutoScaler

/-- Mirrors `AutoScaler.__init__`: `current_instances = config.min_instances`,
empty history, `last_scaling_time = 0`. -/
def init (config : ScalingConfig) : AutoScaler :=
  { config := config
    current_instances := config.min_instances
    metrics_history := []
    last_scaling_time := 0 }

/-- Mirrors `AutoScaler.add_metrics`: append the sample, then keep only the
samples whose timestamp is at least `time.time() - metrics_window`. -/
def add_metrics (s : AutoScaler) (metrics : SystemMetrics) (now : ℚ) : AutoScaler :=
  let history := s.metrics_history ++ [metrics]
  let cutoff_time := now - (s.config.metrics_window : ℚ)
  { s with metrics_history := history.filter (fun m => cutoff_time ≤ m.timestamp) }

/-- Mirrors `AutoScaler._calculate_average_metrics`. -/
def calculate_average_metrics (s : AutoScaler) (now : ℚ) : SystemMetrics :=
  if s.metrics_history = [] then
    { cpu_usage := 0, memory_usage := 0, disk_usage := 0, network_io := 0
      active_connections := 0, response_time := 0, timestamp := now }
  else
    { cpu_usage := ratMean (s.metrics_history.map SystemMetrics.cpu_usage)
      memory_usage := ratMean (s.metrics_history.map SystemMetrics.memory_usage)
      disk_usage := ratMean (s.metrics_history.map SystemMetrics.disk_usage)
      network_io := ratMean (s.metrics_history.map SystemMetrics.network_io)
      active_connections := ratMean (s.metrics_history.map SystemMetrics.active_connections)
      response_time := ratMean (s.metrics_history.map SystemMetrics.response_time)
      timestamp := now }

/-- Mirrors `AutoScaler._should_scale_up`: any critical metric above threshold
and room below `max_instances`. -/
def should_scale_up (s : AutoScaler) (metrics : SystemMetrics) : Bool :=
  decide ((metrics.cpu_usage > s.config.scale_up_threshold ∨
           metrics.memory_usage > s.config.scale_up_threshold ∨
           metrics.response_time > 1000) ∧
          s.current_instances < s.config.max_instances)

/-- Mirrors `AutoScaler._should_scale_down`: all metrics below threshold and
room above `min_instances`. -/
def should_scale_down (s : AutoScaler) (metrics : SystemMetrics) : Bool :=
  decide ((metrics.cpu_usage < s.config.scale_down_threshold ∧
           metrics.memory_usage < s.config.scale_down_threshold ∧
           metrics.response_time < 200) ∧
          s.current_instances > s.config.min_instances)

/-- Mirrors `AutoScaler._calculate_scale_up_confidence`. -/
def calculate_scale_up_confidence (metrics : SystemMetrics) : ℚ :=
  let cpu_factor := min (metrics.cpu_usage / 100) 1
  let memory_factor := min (metrics.memory_usage / 100) 1
  let response_factor := min (metrics.response_time / 2000) 1
  min (cpu_factor * 0.4 + memory_factor * 0.4 + response_factor * 0.2) 1

/-- Mirrors `AutoScaler._calculate_scale_down_confidence`. -/
def calculate_scale_down_confidence (metrics : SystemMetrics) : ℚ :=
  let cpu_factor := 1 - metrics.cpu_usage / 100
  let memory_factor := 1 - metrics.memory_usage / 100
  let response_factor := 1 - metrics.response_time / 1000
  min (cpu_factor * 0.4 + memory_factor * 0.4 + response_factor * 0.2) 1

/-- Mirrors `AutoScaler.should_scale`: insufficient data, then cooldown, then
scale-up checked strictly before scale-down. -/
def should_scale (s : AutoScaler) (now : ℚ) : ScalingAction × ℚ :=
  if s.metrics_history.length < 5 then
    (ScalingAction.NO_ACTION, 0)
  else if now - s.last_scaling_time < (s.config.cooldown_period : ℚ) then
    (ScalingAction.NO_ACTION, 0)
  else
    let avg_metrics := s.calculate_average_metrics now
    if s.should_scale_up avg_metrics then
      (ScalingAction.SCALE_UP, calculate_scale_up_confidence avg_metrics)
    else if s.should_scale_down avg_metrics then
      (ScalingAction.SCALE_DOWN, calculate_scale_down_confidence avg_metrics)
    else
      (ScalingAction.NO_ACTION, 0)

/-- Mirrors `AutoScaler._scale_up`: just sets the in-memory counter. -/
def scale_up_impl (s : AutoScaler) (target_instances : ℤ) : AutoScaler :=
  { s with current_instances := target_instances }

/-- Mirrors `AutoScaler._scale_down`: just sets the in-memory counter. -/
def scale_down_impl (s : AutoScaler) (target_instances : ℤ) : AutoScaler :=
  { s with current_instances := target_instances }

/-- Mirrors `AutoScaler.execute_scaling`.  Returns the Python boolean result
together with the post-state.  The body guarded by `try` in the source is
total arithmetic on in-memory state, so the `except` path is unreachable in
this model. -/
def execute_scaling (s : AutoScaler) (action : ScalingAction) (confidence : ℚ)
    (now : ℚ) : Bool × AutoScaler :=
  if confidence < 0.7 then
    (false, s)
  else
    let s' :=
      match action with
      | ScalingAction.SCALE_UP =>
          s.scale_up_impl (min (pyInt ((s.current_instances : ℚ) * s.config.scale_up_factor))
            s.config.max_instances)
      | ScalingAction.SCALE_DOWN =>
          s.scale_down_impl (max (pyInt ((s.current_instances : ℚ) * s.config.scale_down_factor))
            s.config.min_instances)
      | ScalingAction.NO_ACTION => s
    (true, { s' with last_scaling_time := now })

/-- Runs a sequence of `execute_scaling` calls (each with its action,
confidence and time argument), threading the state. -/
def executeSeq (s : AutoScaler) : List (ScalingAction × ℚ × ℚ) → AutoScaler
  | [] => s
  | (a, c, t) :: rest => executeSeq (s.execute_scaling a c t).2 rest

end AutoScaler

/-!
Embedding of `linked_list.py`.  A `LinkedList` reachable through the public
API is a `None`-terminated chain whose `size` field equals its length, so it
is modelled as a Lean `List α`; an operation that raises `IndexError` is
modelled as returning `none`, in which case the caller's list is untouched
(the model never produces a modified list on the error path).
-/

namespace LinkedList

/-- Walk of `LinkedList.insert_at_position` after its range guard: position 0
delegates to `insert_at_beginning`; otherwise advance `position - 1` nodes
and splice the new node in. -/
def insertGo {α : Type} (data : α) : List α → Nat → List α
  | l, 0 => data :: l
  | [], _ + 1 => [data]
  | x :: xs, n + 1 => x :: insertGo data xs n

/-- Mirrors `LinkedList.insert_at_position`: raises `IndexError` (here:
`none`) iff `position < 0 or position > self.size`. -/
def insert_at_position {α : Type} (l : List α) (data : α) (position : ℤ) :
    Option (List α) :=
  if position < 0 ∨ position > (l.length : ℤ) then none
  else some (insertGo data l position.toNat)

/-- Walk of `LinkedList.delete_by_position` after its range guard: position 0
unlinks the head; otherwise advance `position - 1` nodes and unlink the next
node, returning its data with the remaining list. -/
def deleteGo {α : Type} : List α → Nat → Option (α × List α)
  | [], _ => none
  | x :: xs, 0 => some (x, xs)
  | x :: xs, n + 1 => (deleteGo xs n).map (fun p => (p.1, x :: p.2))

/-- Mirrors `LinkedList.delete_by_position`: raises `IndexError` (here:
`none`) iff `position < 0 or position >= self.size`. -/
def delete_by_position {α : Type} (l : List α) (position : ℤ) :
    Option (α × List α) :=
  if position < 0 ∨ position ≥ (l.length : ℤ) then none
  else deleteGo l position.toNat

/-- Walk of `LinkedList.get_element_at_position` after its range guard:
advance `position` nodes and read the data there. -/
def getGo {α : Type} : List α → Nat → Option α
  | [], _ => none
  | x :: _, 0 => some x
  | _ :: xs, n + 1 => getGo xs n

/-- Mirrors `LinkedList.get_element_at_position`: raises `IndexError` (here:
`none`) iff `position < 0 or position >= self.size`. -/
def get_element_at_position {α : Type} (l : List α) (position : ℤ) : Option α :=
  if position < 0 ∨ position ≥ (l.length : ℤ) then none
  else getGo l position.toNat

end LinkedList

/-!
Concrete example states used to witness or refute the properties below.
-/

/-- Builds a metrics sample from the three decision-relevant fields and a
timestamp (the other fields never influence a decision). -/
def mkMetrics (cpu mem rt t : ℚ) : SystemMetrics :=
  { cpu_usage := cpu, memory_usage := mem, disk_usage := 0, network_io := 0
    active_connections := 0, response_time := rt, timestamp := t }

/-- Configuration whose scale-up factor shrinks the fleet: every other field
keeps its source default. -/
def exCfgHalf : ScalingConfig :=
  { scale_up_factor := 1/2 }

/-- Scaler with four instances under the default configuration. -/
def exScalerFour : AutoScaler :=
  { config := {}, current_instances := 4, metrics_history := [], last_scaling_time := 0 }

/-- Scaler holding a negative instance counter (reachable from a config with
negative `min_instances`, which the dataclass permits). -/
def exScalerNeg : AutoScaler :=
  { config := { min_instances := -10 }, current_instances := -3
    metrics_history := [], last_scaling_time := 0 }

/-- Scaler with five hot samples (cpu 80, memory 50, response 500 ms) under
the default configuration: the spec's worked scale-up example. -/
def exScalerHigh : AutoScaler :=
  { config := {}
    current_instances := 5
    metrics_history :=
      [mkMetrics 80 50 500 1000, mkMetrics 80 50 500 1000, mkMetrics 80 50 500 1000,
       mkMetrics 80 50 500 1000, mkMetrics 80 50 500 1000]
    last_scaling_time := 0 }

/-- Scaler with five cold samples (cpu 20, memory 20, response 100 ms) under
the default configuration: the spec's worked scale-down example. -/
def exScalerLow : AutoScaler :=
  { config := {}
    current_instances := 5
    metrics_history :=
      [mkMetrics 20 20 100 1000, mkMetrics 20 20 100 1000, mkMetrics 20 20 100 1000,
       mkMetrics 20 20 100 1000, mkMetrics 20 20 100 1000]
    last_scaling_time := 0 }

/-- Scaler whose scale-down threshold (200) exceeds 100, with five samples at
cpu 150, memory 150, response 100 ms: its scale-down confidence is negative. -/
def exScalerBad : AutoScaler :=
  { config := { scale_up_threshold := 300, scale_down_threshold := 200 }
    current_instances := 5
    metrics_history :=
      [mkMetrics 150 150 100 1000, mkMetrics 150 150 100 1000, mkMetrics 150 150 100 1000,
       mkMetrics 150 150 100 1000, mkMetrics 150 150 100 1000]
    last_scaling_time := 0 }

/-- Sample with timestamp 100, used to witness the window-pruning property. -/
def exSample : SystemMetrics :=
  mkMetrics 0 0 0 100

/-!
Theorems.
-/

/-- C5: `should_scale` returns `(NO_ACTION, 0.0)` whenever the history holds
fewer than 5 samples, and also whenever it is called within
`cooldown_period` seconds of `last_scaling_time`. -/
theorem C5_insufficient_or_cooldown (s : AutoScaler) (now : ℚ) :
    (s.metrics_history.length < 5 →
      s.should_scale now = (ScalingAction.NO_ACTION, 0)) ∧
    (now - s.last_scaling_time < (s.config.cooldown_period : ℚ) →
      s.should_scale now = (ScalingAction.NO_ACTION, 0)) := by
  constructor
  · intro h
    simp [AutoScaler.should_scale, h]
  · intro h
    by_cases h5 : s.metrics_history.length < 5 <;>
      simp [AutoScaler.should_scale, h5, h]

/-- Witness for C5 at a freshly initialized scaler (empty history). -/
theorem C5_insufficient_or_cooldown_witness :
    (AutoScaler.init {}).should_scale 0 = (ScalingAction.NO_ACTION, 0) :=
  (C5_insufficient_or_cooldown (AutoScaler.init {}) 0).1 (by decide)

/-- C7: every sample retained by `add_metrics` called at time `now` has a
timestamp at least `now - metrics_window`; the operation is total (it
returns the new state and cannot fail). -/
theorem C7_add_metrics_window (s : AutoScaler) (metrics : SystemMetrics) (now : ℚ)
    (m : SystemMetrics) (hm : m ∈ (s.add_metrics metrics now).metrics_history) :
    now - (s.config.metrics_window : ℚ) ≤ m.timestamp := by
  simp only [AutoScaler.add_metrics, List.mem_filter, decide_eq_true_eq] at hm
  exact hm.2

/-- Helper: the sample just appended by `add_metrics` survives the pruning
whenever its timestamp meets the cutoff. -/
theorem mem_add_metrics_self (s : AutoScaler) (metrics : SystemMetrics) (now : ℚ)
    (h : now - (s.config.metrics_window : ℚ) ≤ metrics.timestamp) :
    metrics ∈ (s.add_metrics metrics now).metrics_history :=
  List.mem_filter.mpr
    ⟨List.mem_append_right _ (List.mem_singleton_self _), decide_eq_true h⟩

/-- Witness for C7: a sample stamped 100 added at time 100 is retained and
satisfies the window bound. -/
theorem C7_add_metrics_window_witness :
    (100 : ℚ) - (((AutoScaler.init {}).config.metrics_window : ℤ) : ℚ) ≤ exSample.timestamp :=
  C7_add_metrics_window (AutoScaler.init {}) exSample 100 exSample
    (mem_add_metrics_self (AutoScaler.init {}) exSample 100
      (by norm_num [AutoScaler.init, exSample, mkMetrics]))

/-- C9: `execute_scaling` with `NO_ACTION` and confidence at least 0.7
returns `True`, sets `last_scaling_time` to the current time, and leaves
`current_instances` and `metrics_history` unchanged. -/
theorem C9_noaction_restarts_cooldown (s : AutoScaler) (c now : ℚ) (h : 0.7 ≤ c) :
    s.execute_scaling ScalingAction.NO_ACTION c now =
      (true, { s with last_scaling_time := now }) := by
  simp [AutoScaler.execute_scaling, not_lt.mpr h]

/-- Witness for C9 at the four-instance scaler with confidence 1. -/
theorem C9_noaction_restarts_cooldown_witness :
    exScalerFour.execute_scaling ScalingAction.NO_ACTION 1 5 =
      (true, { exScalerFour with last_scaling_time := 5 }) :=
  C9_noaction_restarts_cooldown exScalerFour 1 5 (by norm_num)

/-- C4: `execute_scaling` with confidence below 0.7 returns failure and
leaves the whole state (in particular `current_instances` and
`last_scaling_time`) unchanged; with confidence at least 0.7 it returns
success and applies the scaling formula for the given action.  The body
guarded by `try` in the source is total in-memory arithmetic, so no fault
can occur and the `except` path never runs. -/
theorem C4_confidence_gate (s : AutoScaler) (action : ScalingAction) (c now : ℚ) :
    (c < 0.7 → s.execute_scaling action c now = (false, s)) ∧
    (0.7 ≤ c → s.execute_scaling action c now =
      (true,
        { s with
          current_instances :=
            match action with
            | ScalingAction.SCALE_UP =>
                min (pyInt ((s.current_instances : ℚ) * s.config.scale_up_factor))
                  s.config.max_instances
            | ScalingAction.SCALE_DOWN =>
                max (pyInt ((s.current_instances : ℚ) * s.config.scale_down_factor))
                  s.config.min_instances
            | ScalingAction.NO_ACTION => s.current_instances
          last_scaling_time := now })) := by
  constructor
  · intro h
    simp [AutoScaler.execute_scaling, h]
  · intro h
    cases action <;>
      simp [AutoScaler.execute_scaling, AutoScaler.scale_up_impl,
        AutoScaler.scale_down_impl, not_lt.mpr h]

/-- Witness for C4 at the four-instance scaler: confidence 0.69 fails and
changes nothing, confidence 0.70 succeeds and applies the formula. -/
theorem C4_confidence_gate_witness :
    exScalerFour.execute_scaling ScalingAction.SCALE_UP (69/100) 5 = (false, exScalerFour) ∧
    exScalerFour.execute_scaling ScalingAction.SCALE_UP (7/10) 5 =
      (true,
        { exScalerFour with
          current_instances :=
            min (pyInt ((exScalerFour.current_instances : ℚ) * exScalerFour.config.scale_up_factor))
              exScalerFour.config.max_instances
          last_scaling_time := 5 }) :=
  ⟨(C4_confidence_gate exScalerFour ScalingAction.SCALE_UP (69/100) 5).1 (by norm_num),
   (C4_confidence_gate exScalerFour ScalingAction.SCALE_UP (7/10) 5).2 (by norm_num)⟩

/-- Helper: the deletion walk succeeds on every in-range index. -/
theorem deleteGo_isSome {α : Type} :
    ∀ (l : List α) (n : Nat), n < l.length → (LinkedList.deleteGo l n).isSome = true := by
  intro l
  induction l with
  | nil => intro n h; simp at h
  | cons x xs ih =>
    intro n h
    cases n with
    | zero => simp [LinkedList.deleteGo]
    | succ n =>
      have hx := ih n (by simpa using h)
      cases hd : LinkedList.deleteGo xs n with
      | none => rw [hd] at hx; simp at hx
      | some p => simp [LinkedList.deleteGo, hd]

/-- Helper: the lookup walk succeeds on every in-range index. -/
theorem getGo_isSome {α : Type} :
    ∀ (l : List α) (n : Nat), n < l.length → (LinkedList.getGo l n).isSome = true := by
  intro l
  induction l with
  | nil => intro n h; simp at h
  | cons x xs ih =>
    intro n h
    cases n with
    | zero => simp [LinkedList.getGo]
    | succ n => exact ih n (by simpa using h)

/-- C10: the linked list's position-taking operations raise `IndexError`
(modelled as `none`) exactly when the position is out of range:
`insert_at_position` iff `position < 0` or `position > size`, and
`delete_by_position` and `get_element_at_position` iff `position < 0` or
`position >= size`; the error path builds no new list, so on a raise the
caller's list is unchanged. -/
theorem C10_position_range {α : Type} (l : List α) (data : α) (position : ℤ) :
    (LinkedList.insert_at_position l data position = none ↔
      position < 0 ∨ position > (l.length : ℤ)) ∧
    (LinkedList.delete_by_position l position = none ↔
      position < 0 ∨ position ≥ (l.length : ℤ)) ∧
    (LinkedList.get_element_at_position l position = none ↔
      position < 0 ∨ position ≥ (l.length : ℤ)) := by
  refine ⟨?_, ?_, ?_⟩
  · unfold LinkedList.insert_at_position
    split
    next h => simp [h]
    next h => simp [h]
  · unfold LinkedList.delete_by_position
    split
    next h => simp [h]
    next h =>
      have hlt : position.toNat < l.length := by omega
      have hs := deleteGo_isSome l position.toNat hlt
      simp only [h, iff_false]
      intro hnone
      rw [hnone] at hs
      simp at hs
  · unfold LinkedList.get_element_at_position
    split
    next h => simp [h]
    next h =>
      have hlt : position.toNat < l.length := by omega
      have hs := getGo_isSome l position.toNat hlt
      simp only [h, iff_false]
      intro hnone
      rw [hnone] at hs
      simp at hs

/-- Helper: on a nonempty history the averaged metrics carry the arithmetic
means of the decision-relevant fields. -/
theorem calculate_average_metrics_fields (s : AutoScaler) (now : ℚ)
    (hne : s.metrics_history ≠ []) :
    (s.calculate_average_metrics now).cpu_usage =
      ratMean (s.metrics_history.map SystemMetrics.cpu_usage) ∧
    (s.calculate_average_metrics now).memory_usage =
      ratMean (s.metrics_history.map SystemMetrics.memory_usage) ∧
    (s.calculate_average_metrics now).response_time =
      ratMean (s.metrics_history.map SystemMetrics.response_time) := by
  unfold AutoScaler.calculate_average_metrics
  rw [if_neg hne]
  exact ⟨rfl, rfl, rfl⟩

/-- C2: with at least 5 samples and the cooldown elapsed, `should_scale`
returns `(SCALE_UP, c)` exactly when (mean cpu > scale_up_threshold OR mean
memory > scale_up_threshold OR mean response_time > 1000) AND
`current_instances < max_instances`, with `c = 0.4 * min(cpu/100, 1) +
0.4 * min(memory/100, 1) + 0.2 * min(response_time/2000, 1)` capped at 1;
the scale-up branch is decided before the scale-down branch is looked at. -/
theorem C2_scale_up_decision (s : AutoScaler) (now : ℚ)
    (h5 : 5 ≤ s.metrics_history.length)
    (hcool : (s.config.cooldown_period : ℚ) ≤ now - s.last_scaling_time) :
    (s.should_scale now =
      (ScalingAction.SCALE_UP,
        min (0.4 * min (ratMean (s.metrics_history.map SystemMetrics.cpu_usage) / 100) 1 +
             0.4 * min (ratMean (s.metrics_history.map SystemMetrics.memory_usage) / 100) 1 +
             0.2 * min (ratMean (s.metrics_history.map SystemMetrics.response_time) / 2000) 1) 1)) ↔
    ((ratMean (s.metrics_history.map SystemMetrics.cpu_usage) > s.config.scale_up_threshold ∨
      ratMean (s.metrics_history.map SystemMetrics.memory_usage) > s.config.scale_up_threshold ∨
      ratMean (s.metrics_history.map SystemMetrics.response_time) > 1000) ∧
     s.current_instances < s.config.max_instances) := by
  have hne : s.metrics_history ≠ [] := by
    intro hnil; rw [hnil] at h5; simp at h5
  obtain ⟨hcpu, hmem, hrt⟩ := calculate_average_metrics_fields s now hne
  have h1 : ¬ s.metrics_history.length < 5 := not_lt.mpr h5
  have h2 : ¬ (now - s.last_scaling_time < (s.config.cooldown_period : ℚ)) := not_lt.mpr hcool
  simp only [AutoScaler.should_scale, if_neg h1, if_neg h2]
  by_cases hup : s.should_scale_up (s.calculate_average_metrics now) = true
  · have hprop := hup
    unfold AutoScaler.should_scale_up at hprop
    rw [decide_eq_true_eq, hcpu, hmem, hrt] at hprop
    rw [if_pos hup]
    refine iff_of_true ?_ hprop
    have hconf : AutoScaler.calculate_scale_up_confidence (s.calculate_average_metrics now) =
        min (0.4 * min (ratMean (s.metrics_history.map SystemMetrics.cpu_usage) / 100) 1 +
             0.4 * min (ratMean (s.metrics_history.map SystemMetrics.memory_usage) / 100) 1 +
             0.2 * min (ratMean (s.metrics_history.map SystemMetrics.response_time) / 2000) 1) 1 := by
      unfold AutoScaler.calculate_scale_up_confidence
      rw [hcpu, hmem, hrt]
      ring_nf
    rw [hconf]
  · have hnprop : ¬ ((ratMean (s.metrics_history.map SystemMetrics.cpu_usage) > s.config.scale_up_threshold ∨
        ratMean (s.metrics_history.map SystemMetrics.memory_usage) > s.config.scale_up_threshold ∨
        ratMean (s.metrics_history.map SystemMetrics.response_time) > 1000) ∧
        s.current_instances < s.config.max_instances) := by
      intro hcontra
      apply hup
      unfold AutoScaler.should_scale_up
      rw [decide_eq_true_eq, hcpu, hmem, hrt]
      exact hcontra
    rw [if_neg hup]
    refine iff_of_false ?_ hnprop
    intro habs
    by_cases hdn : s.should_scale_down (s.calculate_average_metrics now) = true
    · rw [if_pos hdn] at habs
      simp at habs
    · rw [if_neg hdn] at habs
      simp at habs

/-- Witness for C2: the spec's worked example (means cpu 80, memory 50,
response 500 under default thresholds) yields scale-up with confidence
0.57. -/
theorem C2_scale_up_decision_witness :
    exScalerHigh.should_scale 1000 = (ScalingAction.SCALE_UP, 57/100) :=
  ((C2_scale_up_decision exScalerHigh 1000 (by norm_num [exScalerHigh])
      (by norm_num [exScalerHigh])).mpr
    (by norm_num [exScalerHigh, mkMetrics, ratMean])).trans
    (by norm_num [exScalerHigh, mkMetrics, ratMean, min_def])

/-- C3: with at least 5 samples, the cooldown elapsed and the scale-up
condition false, `should_scale` returns `(SCALE_DOWN, c)` exactly when (mean
cpu < scale_down_threshold AND mean memory < scale_down_threshold AND mean
response_time < 200) AND `current_instances > min_instances`, with
`c = 0.4 * (1 - cpu/100) + 0.4 * (1 - memory/100) + 0.2 * (1 - rt/1000)`
capped at 1; otherwise it returns `(NO_ACTION, 0.0)`. -/
theorem C3_scale_down_decision (s : AutoScaler) (now : ℚ)
    (h5 : 5 ≤ s.metrics_history.length)
    (hcool : (s.config.cooldown_period : ℚ) ≤ now - s.last_scaling_time)
    (hnotup : ¬ ((ratMean (s.metrics_history.map SystemMetrics.cpu_usage) > s.config.scale_up_threshold ∨
        ratMean (s.metrics_history.map SystemMetrics.memory_usage) > s.config.scale_up_threshold ∨
        ratMean (s.metrics_history.map SystemMetrics.response_time) > 1000) ∧
        s.current_instances < s.config.max_instances)) :
    ((s.should_scale now =
      (ScalingAction.SCALE_DOWN,
        min (0.4 * (1 - ratMean (s.metrics_history.map SystemMetrics.cpu_usage) / 100) +
             0.4 * (1 - ratMean (s.metrics_history.map SystemMetrics.memory_usage) / 100) +
             0.2 * (1 - ratMean (s.metrics_history.map SystemMetrics.response_time) / 1000)) 1)) ↔
     ((ratMean (s.metrics_history.map SystemMetrics.cpu_usage) < s.config.scale_down_threshold ∧
       ratMean (s.metrics_history.map SystemMetrics.memory_usage) < s.config.scale_down_threshold ∧
       ratMean (s.metrics_history.map SystemMetrics.response_time) < 200) ∧
      s.current_instances > s.config.min_instances)) ∧
    (¬ ((ratMean (s.metrics_history.map SystemMetrics.cpu_usage) < s.config.scale_down_threshold ∧
        ratMean (s.metrics_history.map SystemMetrics.memory_usage) < s.config.scale_down_threshold ∧
        ratMean (s.metrics_history.map SystemMetrics.response_time) < 200) ∧
        s.current_instances > s.config.min_instances) →
      s.should_scale now = (ScalingAction.NO_ACTION, 0)) := by
  have hne : s.metrics_history ≠ [] := by
    intro hnil; rw [hnil] at h5; simp at h5
  obtain ⟨hcpu, hmem, hrt⟩ := calculate_average_metrics_fields s now hne
  have h1 : ¬ s.metrics_history.length < 5 := not_lt.mpr h5
  have h2 : ¬ (now - s.last_scaling_time < (s.config.cooldown_period : ℚ)) := not_lt.mpr hcool
  have hup : ¬ (s.should_scale_up (s.calculate_average_metrics now) = true) := by
    intro habs
    apply hnotup
    unfold AutoScaler.should_scale_up at habs
    rw [decide_eq_true_eq, hcpu, hmem, hrt] at habs
    exact habs
  simp only [AutoScaler.should_scale, if_neg h1, if_neg h2, if_neg hup]
  by_cases hdn : s.should_scale_down (s.calculate_average_metrics now) = true
  · have hprop := hdn
    unfold AutoScaler.should_scale_down at hprop
    rw [decide_eq_true_eq, hcpu, hmem, hrt] at hprop
    rw [if_pos hdn]
    have hconf : AutoScaler.calculate_scale_down_confidence (s.calculate_average_metrics now) =
        min (0.4 * (1 - ratMean (s.metrics_history.map SystemMetrics.cpu_usage) / 100) +
             0.4 * (1 - ratMean (s.metrics_history.map SystemMetrics.memory_usage) / 100) +
             0.2 * (1 - ratMean (s.metrics_history.map SystemMetrics.response_time) / 1000)) 1 := by
      unfold AutoScaler.calculate_scale_down_confidence
      rw [hcpu, hmem, hrt]
      ring_nf
    constructor
    · exact iff_of_true (by rw [hconf]) hprop
    · intro hnd
      exact absurd hprop hnd
  · have hnprop : ¬ ((ratMean (s.metrics_history.map SystemMetrics.cpu_usage) < s.config.scale_down_threshold ∧
        ratMean (s.metrics_history.map SystemMetrics.memory_usage) < s.config.scale_down_threshold ∧
        ratMean (s.metrics_history.map SystemMetrics.response_time) < 200) ∧
        s.current_instances > s.config.min_instances) := by
      intro hcontra
      apply hdn
      unfold AutoScaler.should_scale_down
      rw [decide_eq_true_eq, hcpu, hmem, hrt]
      exact hcontra
    rw [if_neg hdn]
    constructor
    · refine iff_of_false ?_ hnprop
      intro habs
      simp at habs
    · intro _
      rfl

/-- Witness for C3: the spec's worked example (means cpu 20, memory 20,
response 100 under default thresholds) yields scale-down with confidence
0.82. -/
theorem C3_scale_down_decision_witness :
    exScalerLow.should_scale 1000 = (ScalingAction.SCALE_DOWN, 41/50) :=
  (((C3_scale_down_decision exScalerLow 1000 (by norm_num [exScalerLow])
      (by norm_num [exScalerLow])
      (by norm_num [exScalerLow, mkMetrics, ratMean])).1).mpr
    (by norm_num [exScalerLow, mkMetrics, ratMean])).trans
    (by norm_num [exScalerLow, mkMetrics, ratMean, min_def])

/-- Helper: the mean of a list of nonnegative rationals is nonnegative. -/
theorem ratMean_nonneg (l : List ℚ) (h : ∀ x ∈ l, 0 ≤ x) : 0 ≤ ratMean l :=
  div_nonneg (List.sum_nonneg h) (Nat.cast_nonneg _)

/-- Helper: the scale-up confidence never exceeds 1. -/
theorem scale_up_confidence_le_one (m : SystemMetrics) :
    AutoScaler.calculate_scale_up_confidence m ≤ 1 := by
  unfold AutoScaler.calculate_scale_up_confidence
  exact min_le_right _ _

/-- Helper: the scale-up confidence is nonnegative on nonnegative metrics. -/
theorem scale_up_confidence_nonneg (m : SystemMetrics)
    (h1 : 0 ≤ m.cpu_usage) (h2 : 0 ≤ m.memory_usage) (h3 : 0 ≤ m.response_time) :
    0 ≤ AutoScaler.calculate_scale_up_confidence m := by
  unfold AutoScaler.calculate_scale_up_confidence
  refine le_min ?_ zero_le_one
  have a1 : 0 ≤ min (m.cpu_usage / 100) 1 :=
    le_min (div_nonneg h1 (by norm_num)) zero_le_one
  have a2 : 0 ≤ min (m.memory_usage / 100) 1 :=
    le_min (div_nonneg h2 (by norm_num)) zero_le_one
  have a3 : 0 ≤ min (m.response_time / 2000) 1 :=
    le_min (div_nonneg h3 (by norm_num)) zero_le_one
  nlinarith

/-- Helper: the scale-down confidence never exceeds 1. -/
theorem scale_down_confidence_le_one (m : SystemMetrics) :
    AutoScaler.calculate_scale_down_confidence m ≤ 1 := by
  unfold AutoScaler.calculate_scale_down_confidence
  exact min_le_right _ _

/-- Helper: the scale-down confidence is nonnegative whenever cpu and memory
are below 100 and the response time is below 200 ms. -/
theorem scale_down_confidence_nonneg (m : SystemMetrics)
    (h1 : m.cpu_usage < 100) (h2 : m.memory_usage < 100) (h3 : m.response_time < 200) :
    0 ≤ AutoScaler.calculate_scale_down_confidence m := by
  unfold AutoScaler.calculate_scale_down_confidence
  refine le_min ?_ zero_le_one
  nlinarith

/-- C8 (amended): the confidence returned by `should_scale` lies in `[0, 1]`
for every config whose `scale_down_threshold` is at most 100 and every
history whose samples have nonnegative cpu, memory and response-time values
(with a permissive scale-down threshold or negative metric values, the
scale-down confidence can drop below 0, refuting the unrestricted claim). -/
theorem C8_confidence_in_unit_interval (s : AutoScaler) (now : ℚ)
    (hthr : s.config.scale_down_threshold ≤ 100)
    (hnn : ∀ m ∈ s.metrics_history,
      0 ≤ m.cpu_usage ∧ 0 ≤ m.memory_usage ∧ 0 ≤ m.response_time) :
    0 ≤ (s.should_scale now).2 ∧ (s.should_scale now).2 ≤ 1 := by
  simp only [AutoScaler.should_scale]
  by_cases h1 : s.metrics_history.length < 5
  · rw [if_pos h1]
    exact ⟨le_refl _, zero_le_one⟩
  rw [if_neg h1]
  by_cases h2 : now - s.last_scaling_time < (s.config.cooldown_period : ℚ)
  · rw [if_pos h2]
    exact ⟨le_refl _, zero_le_one⟩
  rw [if_neg h2]
  have hne : s.metrics_history ≠ [] := by
    intro hnil; rw [hnil] at h1; simp at h1
  obtain ⟨hcpu, hmem, hrt⟩ := calculate_average_metrics_fields s now hne
  by_cases hup : s.should_scale_up (s.calculate_average_metrics now) = true
  · rw [if_pos hup]
    have hc0 : 0 ≤ (s.calculate_average_metrics now).cpu_usage := by
      rw [hcpu]
      refine ratMean_nonneg _ ?_
      intro x hx
      obtain ⟨m, hm, rfl⟩ := List.mem_map.mp hx
      exact (hnn m hm).1
    have hm0 : 0 ≤ (s.calculate_average_metrics now).memory_usage := by
      rw [hmem]
      refine ratMean_nonneg _ ?_
      intro x hx
      obtain ⟨m, hm, rfl⟩ := List.mem_map.mp hx
      exact (hnn m hm).2.1
    have hr0 : 0 ≤ (s.calculate_average_metrics now).response_time := by
      rw [hrt]
      refine ratMean_nonneg _ ?_
      intro x hx
      obtain ⟨m, hm, rfl⟩ := List.mem_map.mp hx
      exact (hnn m hm).2.2
    exact ⟨scale_up_confidence_nonneg _ hc0 hm0 hr0, scale_up_confidence_le_one _⟩
  rw [if_neg hup]
  by_cases hdn : s.should_scale_down (s.calculate_average_metrics now) = true
  · rw [if_pos hdn]
    have hprop := hdn
    unfold AutoScaler.should_scale_down at hprop
    rw [decide_eq_true_eq] at hprop
    obtain ⟨⟨hcc, hmm2, hrr⟩, -⟩ := hprop
    exact ⟨scale_down_confidence_nonneg _ (lt_of_lt_of_le hcc hthr)
      (lt_of_lt_of_le hmm2 hthr) hrr, scale_down_confidence_le_one _⟩
  · rw [if_neg hdn]
    exact ⟨le_refl _, zero_le_one⟩

/-- Witness for C8 at the cold-sample scaler under the default config. -/
theorem C8_confidence_in_unit_interval_witness :
    0 ≤ (exScalerLow.should_scale 1000).2 ∧ (exScalerLow.should_scale 1000).2 ≤ 1 :=
  C8_confidence_in_unit_interval exScalerLow 1000 (by norm_num [exScalerLow])
    (by norm_num [exScalerLow, mkMetrics])

/-- Counterexample refuting C8 as stated: with `scale_down_threshold = 200`
and five samples at cpu 150, memory 150, response 100 ms, `should_scale`
takes the scale-down branch and returns the confidence -11/50, outside
`[0, 1]`. -/
theorem C8_claim_counterexample :
    ¬ (0 ≤ (exScalerBad.should_scale 1000).2 ∧ (exScalerBad.should_scale 1000).2 ≤ 1) := by
  have h : exScalerBad.should_scale 1000 = (ScalingAction.SCALE_DOWN, -(11/50)) := by
    norm_num [AutoScaler.should_scale, AutoScaler.calculate_average_metrics,
      AutoScaler.should_scale_up, AutoScaler.should_scale_down,
      AutoScaler.calculate_scale_down_confidence, exScalerBad, mkMetrics, ratMean, min_def,
      List.cons_ne_nil]
  rw [h]
  norm_num

/-- Helper: truncation toward zero is at most the ceiling. -/
theorem pyInt_le_ceil (q : ℚ) : pyInt q ≤ ⌈q⌉ := by
  unfold pyInt
  split
  · exact Int.floor_le_ceil q
  · exact le_refl _

/-- Helper: the floor is at most the truncation toward zero. -/
theorem floor_le_pyInt (q : ℚ) : ⌊q⌋ ≤ pyInt q := by
  unfold pyInt
  split
  · exact le_refl _
  · exact Int.floor_le_ceil q

/-- Helper: `execute_scaling` never touches the configuration. -/
theorem execute_scaling_config (s : AutoScaler) (a : ScalingAction) (c now : ℚ) :
    (s.execute_scaling a c now).2.config = s.config := by
  unfold AutoScaler.execute_scaling AutoScaler.scale_up_impl AutoScaler.scale_down_impl
  split
  · rfl
  · cases a <;> rfl

/-- Helper: one `execute_scaling` call preserves the instance bounds when the
configuration is sane (nonnegative minimum, growth factor at least 1,
shrink factor at most 1). -/
theorem execute_scaling_invariant (s : AutoScaler) (a : ScalingAction) (c now : ℚ)
    (hmin0 : 0 ≤ s.config.min_instances)
    (hupf : 1 ≤ s.config.scale_up_factor)
    (hdownf : s.config.scale_down_factor ≤ 1)
    (hminmax : s.config.min_instances ≤ s.config.max_instances)
    (hlo : s.config.min_instances ≤ s.current_instances)
    (hhi : s.current_instances ≤ s.config.max_instances) :
    s.config.min_instances ≤ (s.execute_scaling a c now).2.current_instances ∧
    (s.execute_scaling a c now).2.current_instances ≤ s.config.max_instances := by
  have hcur0 : (0 : ℚ) ≤ (s.current_instances : ℚ) := by
    exact_mod_cast hmin0.trans hlo
  unfold AutoScaler.execute_scaling AutoScaler.scale_up_impl AutoScaler.scale_down_impl
  split
  · exact ⟨hlo, hhi⟩
  · cases a with
    | SCALE_UP =>
      constructor
      · refine le_min ?_ hminmax
        have hstep : s.current_instances ≤ ⌊(s.current_instances : ℚ) * s.config.scale_up_factor⌋ := by
          calc s.current_instances = ⌊((s.current_instances : ℤ) : ℚ)⌋ := (Int.floor_intCast _).symm
          _ ≤ ⌊(s.current_instances : ℚ) * s.config.scale_up_factor⌋ :=
              Int.floor_le_floor (le_mul_of_one_le_right hcur0 hupf)
        exact hlo.trans (hstep.trans (floor_le_pyInt _))
      · exact min_le_right _ _
    | SCALE_DOWN =>
      constructor
      · exact le_max_right _ _
      · refine max_le ?_ hminmax
        have hstep : ⌈(s.current_instances : ℚ) * s.config.scale_down_factor⌉ ≤ s.current_instances := by
          calc ⌈(s.current_instances : ℚ) * s.config.scale_down_factor⌉
              ≤ ⌈((s.current_instances : ℤ) : ℚ)⌉ :=
                Int.ceil_le_ceil (mul_le_of_le_one_right hcur0 hdownf)
          _ = s.current_instances := Int.ceil_intCast _
        exact ((pyInt_le_ceil _).trans hstep).trans hhi
    | NO_ACTION => exact ⟨hlo, hhi⟩

/-- C1 (amended): for every `ScalingConfig` with
`0 ≤ min_instances ≤ max_instances`, `scale_up_factor ≥ 1` and
`scale_down_factor ≤ 1`, after every sequence of `execute_scaling` calls on
a scaler initialized from that config,
`min_instances ≤ current_instances ≤ max_instances` holds (a factor outside
those ranges lets a call escape the bounds, refuting the claim for arbitrary
configs with `min_instances ≤ max_instances`). -/
theorem C1_instance_bounds_invariant (config : ScalingConfig)
    (hminmax : config.min_instances ≤ config.max_instances)
    (hmin0 : 0 ≤ config.min_instances)
    (hupf : 1 ≤ config.scale_up_factor)
    (hdownf : config.scale_down_factor ≤ 1)
    (calls : List (ScalingAction × ℚ × ℚ)) :
    config.min_instances ≤ (AutoScaler.executeSeq (AutoScaler.init config) calls).current_instances ∧
    (AutoScaler.executeSeq (AutoScaler.init config) calls).current_instances ≤ config.max_instances := by
  suffices H : ∀ (calls : List (ScalingAction × ℚ × ℚ)) (s : AutoScaler),
      s.config = config →
      config.min_instances ≤ s.current_instances →
      s.current_instances ≤ config.max_instances →
      config.min_instances ≤ (AutoScaler.executeSeq s calls).current_instances ∧
      (AutoScaler.executeSeq s calls).current_instances ≤ config.max_instances by
    exact H calls (AutoScaler.init config) rfl (le_refl _) hminmax
  intro calls
  induction calls with
  | nil =>
    intro s _ hlo hhi
    exact ⟨hlo, hhi⟩
  | cons hd tl ih =>
    intro s hcfg hlo hhi
    obtain ⟨a, c, t⟩ := hd
    have hstep := execute_scaling_invariant s a c t
      (by rw [hcfg]; exact hmin0) (by rw [hcfg]; exact hupf) (by rw [hcfg]; exact hdownf)
      (by rw [hcfg]; exact hminmax) (by rw [hcfg]; exact hlo) (by rw [hcfg]; exact hhi)
    rw [hcfg] at hstep
    exact ih (s.execute_scaling a c t).2 ((execute_scaling_config s a c t).trans hcfg)
      hstep.1 hstep.2

/-- Witness for C1 at the default configuration and a single accepted
scale-up call. -/
theorem C1_instance_bounds_invariant_witness :
    ({} : ScalingConfig).min_instances ≤
      (AutoScaler.executeSeq (AutoScaler.init {}) [(ScalingAction.SCALE_UP, 1, 0)]).current_instances ∧
    (AutoScaler.executeSeq (AutoScaler.init {}) [(ScalingAction.SCALE_UP, 1, 0)]).current_instances ≤
      ({} : ScalingConfig).max_instances :=
  C1_instance_bounds_invariant {} (by norm_num) (by norm_num) (by norm_num) (by norm_num)
    [(ScalingAction.SCALE_UP, 1, 0)]

/-- Counterexample refuting C1 as stated: the config with
`scale_up_factor = 1/2` (and the source defaults `min_instances = 2`,
`max_instances = 10`) satisfies `min_instances ≤ max_instances`, yet a
single accepted scale-up call drops `current_instances` to 1, below
`min_instances`. -/
theorem C1_claim_counterexample :
    exCfgHalf.min_instances ≤ exCfgHalf.max_instances ∧
    ¬ (exCfgHalf.min_instances ≤
        (AutoScaler.executeSeq (AutoScaler.init exCfgHalf)
          [(ScalingAction.SCALE_UP, 1, 0)]).current_instances) := by
  constructor
  · norm_num [exCfgHalf]
  · have h : (AutoScaler.executeSeq (AutoScaler.init exCfgHalf)
        [(ScalingAction.SCALE_UP, 1, 0)]).current_instances = 1 := by
      norm_num [AutoScaler.executeSeq, AutoScaler.execute_scaling, AutoScaler.init,
        AutoScaler.scale_up_impl, exCfgHalf, pyInt, Int.floor_eq_iff]
    rw [h]
    norm_num [exCfgHalf]

/-- C6 (amended): for every scaler state with a nonnegative instance counter
and nonnegative scale factors, an accepted (confidence at least 0.7) ScaleUp
sets `current_instances` to
`min(floor(current_instances * scale_up_factor), max_instances)` and an
accepted ScaleDown sets it to
`max(floor(current_instances * scale_down_factor), min_instances)`; in
particular 4 instances with factor 1.5 and max 10 yield 6.  (On a negative
counter the source's `int()` truncates toward zero instead of flooring,
refuting the claim for arbitrary states.) -/
theorem C6_scaling_formula (s : AutoScaler) (c now : ℚ)
    (hc : 0.7 ≤ c)
    (hcur : 0 ≤ s.current_instances)
    (hupf : 0 ≤ s.config.scale_up_factor)
    (hdownf : 0 ≤ s.config.scale_down_factor) :
    (s.execute_scaling ScalingAction.SCALE_UP c now).2.current_instances =
      min ⌊(s.current_instances : ℚ) * s.config.scale_up_factor⌋ s.config.max_instances ∧
    (s.execute_scaling ScalingAction.SCALE_DOWN c now).2.current_instances =
      max ⌊(s.current_instances : ℚ) * s.config.scale_down_factor⌋ s.config.min_instances := by
  have hcur0 : (0 : ℚ) ≤ (s.current_instances : ℚ) := by exact_mod_cast hcur
  have hq1 : (0 : ℚ) ≤ (s.current_instances : ℚ) * s.config.scale_up_factor :=
    mul_nonneg hcur0 hupf
  have hq2 : (0 : ℚ) ≤ (s.current_instances : ℚ) * s.config.scale_down_factor :=
    mul_nonneg hcur0 hdownf
  unfold AutoScaler.execute_scaling AutoScaler.scale_up_impl AutoScaler.scale_down_impl pyInt
  constructor <;> simp only [if_neg (not_lt.mpr hc), if_pos hq1, if_pos hq2]

/-- Witness for C6 at the four-instance default scaler: scale-up yields 6
instances, scale-down yields 2. -/
theorem C6_scaling_formula_witness :
    (exScalerFour.execute_scaling ScalingAction.SCALE_UP 1 0).2.current_instances = 6 ∧
    (exScalerFour.execute_scaling ScalingAction.SCALE_DOWN 1 0).2.current_instances = 2 := by
  have h := C6_scaling_formula exScalerFour 1 0 (by norm_num)
    (by norm_num [exScalerFour]) (by norm_num [exScalerFour]) (by norm_num [exScalerFour])
  exact ⟨h.1.trans (by norm_num [exScalerFour]), h.2.trans (by norm_num [exScalerFour])⟩

/-- Counterexample refuting C6 as stated: on the scaler holding -3 instances
with factor 1.5, the source computes `int(-4.5) = -4` while the claim's
floor formula demands -5. -/
theorem C6_claim_counterexample :
    (exScalerNeg.execute_scaling ScalingAction.SCALE_UP 1 0).2.current_instances ≠
      min ⌊(exScalerNeg.current_instances : ℚ) * exScalerNeg.config.scale_up_factor⌋
        exScalerNeg.config.max_instances := by
  have h1 : (exScalerNeg.execute_scaling ScalingAction.SCALE_UP 1 0).2.current_instances = -4 := by
    norm_num [AutoScaler.execute_scaling, AutoScaler.scale_up_impl, exScalerNeg, pyInt,
      Int.ceil_neg]
  have h2 : min ⌊(exScalerNeg.current_instances : ℚ) * exScalerNeg.config.scale_up_factor⌋
      exScalerNeg.config.max_instances = -5 := by
    norm_num [exScalerNeg]
  rw [h1, h2]
  norm_num

end PortfolioRepo
